import Mathlib

/-!
Shallow embedding of the supply-chain tracker
(`supply_chain_tracker.py`, with the `supplychain_entry.py` variant in the
`Entry` namespace).  Python dicts are insertion-ordered association lists,
exceptions are explicit `Except` results paired with the (unchanged) state,
and the wall clock is an explicit `now : String` argument.
-/

set_option maxHeartbeats 1000000

/-- Python `KeyError`, carrying the missing key. -/
inductive PyErr where
  | keyError (key : String)
deriving DecidableEq

/-- Python string slicing `s[:n]`. -/
def pyTake (n : Nat) (s : String) : String := ⟨s.data.take n⟩

/-- Modelled from the spec: `hashlib.sha256(x.encode()).hexdigest()` (the
standard library digest, not code of this repository) is an opaque
deterministic 64-character hex digest.  The claims rely only on its
determinism and on its fixed 64-character length, so it is modelled as the
input padded/truncated to exactly 64 characters. -/
def sha256hex (s : String) : String := ⟨(s.data ++ List.replicate 64 '0').take 64⟩

/-- Python dict assignment `d[k] = v`: replaces in place if the key is
present (keeping its position), otherwise appends at the end. -/
def dictInsert (k : String) (v : α) : List (String × α) → List (String × α)
  | [] => [(k, v)]
  | kv :: rest => if kv.1 = k then (k, v) :: rest else kv :: dictInsert k v rest

/-- Python dict lookup `d.get(k)` / `d[k]` (the caller decides whether
`none` means `KeyError`). -/
def dictGet? (k : String) : List (String × α) → Option α
  | [] => none
  | kv :: rest => if kv.1 = k then some kv.2 else dictGet? k rest

/-- One manufacturer directory record (`manufacturers_db` values in
`supply_chain_tracker.py`). -/
structure ManufacturerRecord where
  name : String
  certification : String
  speciality : String
  security_level : String
  location : String
deriving DecidableEq, Inhabited

/-- One custody-chain event dict; every event built by the module carries
exactly these seven keys. -/
structure CustodyEvent where
  stage : String
  handler : String
  timestamp : String
  location : String
  action : String
  verified_by : String
  signature : String
deriving DecidableEq, Inhabited

/-- The key set of every custody-event dict built by the module; the
source's membership test `'signature' in event` is a key-presence check
against these keys (not a check on the signature value). -/
def eventHasKey (_ : CustodyEvent) (k : String) : Bool :=
  ["stage", "handler", "timestamp", "location", "action", "verified_by",
    "signature"].contains k

/-- The `SupplyChainEntry` dataclass. -/
structure SupplyChainEntry where
  component_id : String
  component_name : String
  manufacturer : String
  manufacturing_date : String
  batch_id : String
  verification_hash : String
  digital_signature : String
  custody_chain : List CustodyEvent
  indigenous_certification : Bool
  security_clearance : String
deriving DecidableEq, Inhabited

/-- The component-registration input dict (all seven keys are supplied by
every caller in the source). -/
structure ComponentData where
  component_id : String
  component_name : String
  manufacturer : String
  manufacturing_date : String
  batch_id : String
  indigenous_certification : Bool
  security_clearance : String
deriving DecidableEq, Inhabited

/-- The custody-event input dict of `add_custody_event`; the source reads
some keys with `[]` (KeyError when absent) and some with `.get` defaults,
so each key is optional here. -/
structure EventData where
  stage : Option String
  handler : Option String
  timestamp : Option String
  location : Option String
  action : Option String
  verified_by : Option String
deriving DecidableEq, Inhabited

/-- The tracker state: `components_db` and `manufacturers_db`. -/
structure SupplyChainTracker where
  components_db : List (String × SupplyChainEntry)
  manufacturers_db : List (String × ManufacturerRecord)
deriving DecidableEq

/-- The static manufacturer directory of `supply_chain_tracker.py`. -/
def manufacturers_db_init : List (String × ManufacturerRecord) :=
  [("IIT_MADRAS",
    { name := "IIT Madras", certification := "INDIGENOUS_VERIFIED",
      speciality := "SHAKTI Processors", security_level := "TOP_SECRET",
      location := "Chennai, Tamil Nadu" }),
   ("C_DAC",
    { name := "Centre for Development of Advanced Computing",
      certification := "INDIGENOUS_VERIFIED",
      speciality := "Hardware Security Modules", security_level := "SECRET",
      location := "Pune, Maharashtra" }),
   ("DRDO_LABS",
    { name := "Defence Research and Development Organisation",
      certification := "INDIGENOUS_VERIFIED",
      speciality := "Anti-Tamper Enclosures", security_level := "TOP_SECRET",
      location := "New Delhi" }),
   ("BEL_INDIA",
    { name := "Bharat Electronics Limited",
      certification := "INDIGENOUS_VERIFIED",
      speciality := "Power Systems & Electronics", security_level := "SECRET",
      location := "Bangalore, Karnataka" }),
   ("COSMIC_CIRCUITS",
    { name := "Cosmic Circuits Private Limited",
      certification := "INDIGENOUS_VERIFIED",
      speciality := "PCB Manufacturing", security_level := "CONFIDENTIAL",
      location := "Noida, Uttar Pradesh" }),
   ("TEJAS_NETWORKS",
    { name := "Tejas Networks", certification := "INDIGENOUS_VERIFIED",
      speciality := "Network Equipment", security_level := "SECRET",
      location := "Bangalore, Karnataka" })]

/-- `generate_component_hash`. -/
def generate_component_hash (component_data : String) : String :=
  sha256hex component_data

/-- `generate_digital_signature` (the wall-clock ISO timestamp is the
explicit `now` argument). -/
def generate_digital_signature (component_id manufacturer now : String) : String :=
  pyTake 32 (sha256hex (component_id ++ "_" ++ manufacturer ++ "_" ++ now))

/-- `register_component` of `supply_chain_tracker.py`.  The lookup
`manufacturers_db[component_data['manufacturer']]['location']` raises
`KeyError` for an unknown manufacturer, before anything is stored; the
final dict assignment silently overwrites any record already registered
under the same id. -/
def register_component (t : SupplyChainTracker) (cd : ComponentData)
    (now : String) : SupplyChainTracker × Except PyErr SupplyChainEntry :=
  let hash_input := cd.component_id ++ "_" ++ cd.manufacturer ++ "_" ++ cd.batch_id
  let verification_hash := generate_component_hash hash_input
  let digital_signature := generate_digital_signature cd.component_id cd.manufacturer now
  match dictGet? cd.manufacturer t.manufacturers_db with
  | none => (t, .error (.keyError cd.manufacturer))
  | some m =>
    let custody_chain : List CustodyEvent :=
      [{ stage := "MANUFACTURING"
         handler := cd.manufacturer
         timestamp := cd.manufacturing_date
         location := m.location
         action := "COMPONENT_CREATED"
         verified_by := "QA_SYSTEM_AUTOMATED"
         signature := pyTake 16 (sha256hex ("MFG_" ++ cd.component_id)) }]
    let entry : SupplyChainEntry :=
      { component_id := cd.component_id
        component_name := cd.component_name
        manufacturer := cd.manufacturer
        manufacturing_date := cd.manufacturing_date
        batch_id := cd.batch_id
        verification_hash := verification_hash
        digital_signature := digital_signature
        custody_chain := custody_chain
        indigenous_certification := cd.indigenous_certification
        security_clearance := cd.security_clearance }
    ({ t with components_db := dictInsert cd.component_id entry t.components_db },
     .ok entry)

/-- `add_custody_event` of `supply_chain_tracker.py`.  The event signature
is computed from `event_data['stage']` and `event_data['timestamp']`
(plain subscripts, so `KeyError` when absent) before the event dict itself
is built with a `.get('timestamp', now)` default; the chain is mutated
only on the success path. -/
def add_custody_event (t : SupplyChainTracker) (component_id : String)
    (ed : EventData) (now : String) : SupplyChainTracker × Except PyErr Bool :=
  match dictGet? component_id t.components_db with
  | none => (t, .ok false)
  | some component =>
    match ed.stage with
    | none => (t, .error (.keyError "stage"))
    | some st =>
      match ed.timestamp with
      | none => (t, .error (.keyError "timestamp"))
      | some ts =>
        let event_signature :=
          pyTake 16 (sha256hex (component_id ++ "_" ++ st ++ "_" ++ ts))
        match ed.handler with
        | none => (t, .error (.keyError "handler"))
        | some h =>
          match ed.location with
          | none => (t, .error (.keyError "location"))
          | some loc =>
            match ed.action with
            | none => (t, .error (.keyError "action"))
            | some act =>
              let custody_event : CustodyEvent :=
                { stage := st
                  handler := h
                  timestamp := ed.timestamp.getD now
                  location := loc
                  action := act
                  verified_by := ed.verified_by.getD "SYSTEM_AUTOMATED"
                  signature := event_signature }
              let component' :=
                { component with
                    custody_chain := component.custody_chain ++ [custody_event] }
              ({ t with components_db :=
                   dictInsert component_id component' t.components_db },
               .ok true)

/-- The `hash_valid` sub-check of `verify_component_authenticity`:
recompute the hash over the stored id, manufacturer key and batch id and
compare with the stored verification hash. -/
def hash_ok (component : SupplyChainEntry) : Bool :=
  generate_component_hash
      (component.component_id ++ "_" ++ component.manufacturer ++ "_" ++
        component.batch_id)
    == component.verification_hash

/-- The `manufacturer_valid` sub-check: the stored manufacturer key still
resolves in the directory. -/
def manufacturer_valid_check (t : SupplyChainTracker)
    (component : SupplyChainEntry) : Bool :=
  (dictGet? component.manufacturer t.manufacturers_db).isSome

/-- The `chain_valid` sub-check: the custody chain is non-empty and every
event dict carries the `signature` key. -/
def chain_valid_check (component : SupplyChainEntry) : Bool :=
  decide (component.custody_chain.length > 0) &&
    component.custody_chain.all (fun event => eventHasKey event "signature")

/-- The dict returned by `verify_component_authenticity` for an unknown
id (it carries only these keys). -/
structure NotFoundResult where
  component_id : String
  verification_status : String
  authentic : Bool
  indigenous : Bool
  security_cleared : Bool
  chain_integrity : Bool
  error : String
deriving DecidableEq

/-- The dict returned by `verify_component_authenticity` for a registered
id. -/
structure FoundResult where
  component_id : String
  component_name : String
  manufacturer_name : String
  manufacturer_location : String
  verification_status : String
  authentic : Bool
  indigenous : Bool
  security_cleared : Bool
  security_clearance : String
  chain_integrity : Bool
  hash_verification : Bool
  custody_events : Nat
  manufacturing_date : String
  batch_id : String
  last_update : String
  verification_hash_preview : String
deriving DecidableEq

/-- The two shapes of verification result dict. -/
inductive VerificationResult where
  | notFound (r : NotFoundResult)
  | found (r : FoundResult)
deriving DecidableEq

/-- Access the `authentic` key, present in both result shapes. -/
def verdict_authentic : VerificationResult → Bool
  | .notFound r => r.authentic
  | .found r => r.authentic

/-- Access the `indigenous` key, present in both result shapes. -/
def verdict_indigenous : VerificationResult → Bool
  | .notFound r => r.indigenous
  | .found r => r.indigenous

/-- `verify_component_authenticity` of `supply_chain_tracker.py`. -/
def verify_component_authenticity (t : SupplyChainTracker)
    (component_id : String) : VerificationResult :=
  match dictGet? component_id t.components_db with
  | none =>
    .notFound
      { component_id := component_id
        verification_status := "COMPONENT_NOT_FOUND"
        authentic := false
        indigenous := false
        security_cleared := false
        chain_integrity := false
        error := "Component not registered in database" }
  | some component =>
    let hash_valid := hash_ok component
    let manufacturer_valid := manufacturer_valid_check t component
    let indigenous_valid := component.indigenous_certification
    let chain_valid := chain_valid_check component
    let overall_authentic := hash_valid && manufacturer_valid && chain_valid
    .found
      { component_id := component_id
        component_name := component.component_name
        manufacturer_name :=
          ((dictGet? component.manufacturer t.manufacturers_db).map
            (fun m => m.name)).getD "UNKNOWN"
        manufacturer_location :=
          ((dictGet? component.manufacturer t.manufacturers_db).map
            (fun m => m.location)).getD "UNKNOWN"
        verification_status :=
          if overall_authentic then "VERIFIED" else "VERIFICATION_FAILED"
        authentic := overall_authentic
        indigenous := indigenous_valid
        security_cleared := true
        security_clearance := component.security_clearance
        chain_integrity := chain_valid
        hash_verification := hash_valid
        custody_events := component.custody_chain.length
        manufacturing_date := component.manufacturing_date
        batch_id := component.batch_id
        last_update :=
          match component.custody_chain.getLast? with
          | some event => event.timestamp
          | none => "N/A"
        verification_hash_preview :=
          pyTake 16 component.verification_hash ++ "..." }

/-- The `summary` sub-dict of `get_supply_chain_report`. -/
structure ReportSummary where
  total_components : Nat
  verified_components : Nat
  indigenous_components : Nat
  verification_rate : String
  indigenous_rate : String
deriving DecidableEq

/-- The dict returned by `get_supply_chain_report` (time-derived fields
are explicit arguments). -/
structure SupplyChainReport where
  report_id : String
  generated_at : String
  summary : ReportSummary
  manufacturer_breakdown : List (String × Nat)
  security_clearance_distribution : List (String × Nat)
  chain_integrity : String
  compliance_status : String
  audit_timestamp : String
deriving DecidableEq

/-- Modelled from the spec: the Python float formatting
`f"{(num/den*100):.1f}%"` used for the rates (standard library behaviour,
not code of this repository), rendered here with exact rational
arithmetic and round-half-up.  The claims exercise only the zero-total
branch of the report, which bypasses this formatting entirely. -/
def format_rate_pct (num den : Nat) : String :=
  let tenths := (num * 1000 + den / 2) / den
  toString (tenths / 10) ++ "." ++ toString (tenths % 10) ++ "%"

/-- Bump a counter in a Python dict, `d[k] = d.get(k, 0) + 1`. -/
def dictIncr (k : String) (l : List (String × Nat)) : List (String × Nat) :=
  dictInsert k (((dictGet? k l).getD 0) + 1) l

/-- `get_supply_chain_report` of `supply_chain_tracker.py`. -/
def get_supply_chain_report (t : SupplyChainTracker)
    (report_id generated_at audit_timestamp : String) : SupplyChainReport :=
  let total_components := t.components_db.length
  let verified_components :=
    (t.components_db.filter
      (fun kv => verdict_authentic (verify_component_authenticity t kv.1))).length
  let indigenous_components :=
    (t.components_db.filter (fun kv => kv.2.indigenous_certification)).length
  { report_id := report_id
    generated_at := generated_at
    summary :=
      { total_components := total_components
        verified_components := verified_components
        indigenous_components := indigenous_components
        verification_rate :=
          if total_components > 0 then
            format_rate_pct verified_components total_components
          else "0%"
        indigenous_rate :=
          if total_components > 0 then
            format_rate_pct indigenous_components total_components
          else "0%" }
    manufacturer_breakdown :=
      t.components_db.foldl
        (fun acc kv =>
          dictIncr
            (((dictGet? kv.2.manufacturer t.manufacturers_db).map
              (fun m => m.name)).getD "UNKNOWN")
            acc)
        []
    security_clearance_distribution :=
      [("TOP_SECRET",
        (t.components_db.filter
          (fun kv => kv.2.security_clearance == "TOP_SECRET")).length),
       ("SECRET",
        (t.components_db.filter
          (fun kv => kv.2.security_clearance == "SECRET")).length),
       ("CONFIDENTIAL",
        (t.components_db.filter
          (fun kv => kv.2.security_clearance == "CONFIDENTIAL")).length)]
    chain_integrity := "SECURE"
    compliance_status := "FULLY_COMPLIANT_BPRD_STANDARDS"
    audit_timestamp := audit_timestamp }

/-- The six sample components of `supply_chain_tracker.py`. -/
def sample_components : List ComponentData :=
  [{ component_id := "SHAKTI-C-001",
     component_name := "SHAKTI C-Class Processor 64-bit",
     manufacturer := "IIT_MADRAS", manufacturing_date := "2024-08-15",
     batch_id := "BATCH_SHAKTI_2024_Q3_001",
     indigenous_certification := true, security_clearance := "TOP_SECRET" },
   { component_id := "HSM-SEC-001",
     component_name := "Hardware Security Module v2.1",
     manufacturer := "C_DAC", manufacturing_date := "2024-08-20",
     batch_id := "BATCH_HSM_2024_Q3_001",
     indigenous_certification := true, security_clearance := "SECRET" },
   { component_id := "ENC-CASE-001",
     component_name := "Anti-Tamper Enclosure Military Grade",
     manufacturer := "DRDO_LABS", manufacturing_date := "2024-08-25",
     batch_id := "BATCH_ENC_2024_Q3_001",
     indigenous_certification := true, security_clearance := "TOP_SECRET" },
   { component_id := "PWR-UPS-001",
     component_name := "Uninterruptible Power Supply 1000W",
     manufacturer := "BEL_INDIA", manufacturing_date := "2024-09-01",
     batch_id := "BATCH_PWR_2024_Q3_001",
     indigenous_certification := true, security_clearance := "SECRET" },
   { component_id := "PCB-IND-001",
     component_name := "Indigenous PCB Board Multi-Layer",
     manufacturer := "COSMIC_CIRCUITS", manufacturing_date := "2024-09-05",
     batch_id := "BATCH_PCB_2024_Q3_001",
     indigenous_certification := true, security_clearance := "CONFIDENTIAL" },
   { component_id := "NET-MOD-001",
     component_name := "Secure Network Interface Module",
     manufacturer := "TEJAS_NETWORKS", manufacturing_date := "2024-09-10",
     batch_id := "BATCH_NET_2024_Q3_001",
     indigenous_certification := true, security_clearance := "SECRET" }]

/-- `initialize_sample_components` (registration errors would propagate in
Python; none occur on the sample data, so the fold keeps the state on the
error branch). -/
def init_sample_components (t : SupplyChainTracker) (now : String) :
    SupplyChainTracker :=
  sample_components.foldl (fun s cd => (register_component s cd now).1) t

/-- A tracker with the static manufacturer directory and no components
(the state `__init__` builds just before seeding the samples). -/
def empty_tracker : SupplyChainTracker :=
  { components_db := [], manufacturers_db := manufacturers_db_init }

/-- The state the `SupplyChainTracker()` constructor produces. -/
def initial_tracker (now : String) : SupplyChainTracker :=
  init_sample_components empty_tracker now

/-- Fold a list of `add_custody_event` calls (component id, event data,
wall clock) over a tracker state. -/
def run_appends (t : SupplyChainTracker)
    (ops : List (String × EventData × String)) : SupplyChainTracker :=
  ops.foldl (fun s op => (add_custody_event s op.1 op.2.1 op.2.2).1) t

/-- Whether an `add_custody_event` outcome is a Python-level `True`. -/
def is_ok_true : Except PyErr Bool → Bool
  | .ok true => true
  | _ => false

/-- Whether a registration outcome returned an entry (rather than
raising). -/
def except_is_ok : Except PyErr SupplyChainEntry → Bool
  | .ok _ => true
  | .error _ => false

/-- Count the calls in an `add_custody_event` trace that target `id` and
return `True`, running the state forward through the trace. -/
def count_ok (t : SupplyChainTracker)
    (ops : List (String × EventData × String)) (id : String) : Nat :=
  match ops with
  | [] => 0
  | op :: rest =>
    let step := add_custody_event t op.1 op.2.1 op.2.2
    (if op.1 = id && is_ok_true step.2 then 1 else 0) + count_ok step.1 rest id

/-- States reachable from `t0` through the two mutating registry
operations. -/
inductive ReachFrom (t0 : SupplyChainTracker) : SupplyChainTracker → Prop where
  | refl : ReachFrom t0 t0
  | reg (s : SupplyChainTracker) (cd : ComponentData) (now : String) :
      ReachFrom t0 s → ReachFrom t0 (register_component s cd now).1
  | add (s : SupplyChainTracker) (cid : String) (ed : EventData) (now : String) :
      ReachFrom t0 s → ReachFrom t0 (add_custody_event s cid ed now).1

namespace Entry

/-- One manufacturer directory record of `supplychain_entry.py` (this
variant's records carry no `location` key). -/
structure ManufacturerRecord where
  name : String
  certification : String
  speciality : String
  security_level : String
deriving DecidableEq, Inhabited

/-- The static manufacturer directory of `supplychain_entry.py`. -/
def manufacturers_db_init : List (String × ManufacturerRecord) :=
  [("IIT_MADRAS",
    { name := "IIT Madras", certification := "INDIGENOUS_VERIFIED",
      speciality := "SHAKTI Processors", security_level := "TOP_SECRET" }),
   ("C_DAC",
    { name := "Centre for Development of Advanced Computing",
      certification := "INDIGENOUS_VERIFIED",
      speciality := "Hardware Security Modules", security_level := "SECRET" }),
   ("DRDO_LABS",
    { name := "Defence Research and Development Organisation",
      certification := "INDIGENOUS_VERIFIED",
      speciality := "Anti-Tamper Enclosures", security_level := "TOP_SECRET" }),
   ("BEL_INDIA",
    { name := "Bharat Electronics Limited",
      certification := "INDIGENOUS_VERIFIED",
      speciality := "Power Systems", security_level := "SECRET" }),
   ("COSMIC_CIRCUITS",
    { name := "Cosmic Circuits Private Limited",
      certification := "INDIGENOUS_VERIFIED",
      speciality := "PCB Manufacturing", security_level := "CONFIDENTIAL" })]

/-- The tracker state of `supplychain_entry.py`. -/
structure Tracker where
  components_db : List (String × SupplyChainEntry)
  manufacturers_db : List (String × ManufacturerRecord)
deriving DecidableEq

/-- `register_component` of `supplychain_entry.py`: this variant never
consults the manufacturer directory (the initial event's location is the
literal `"Manufacturing Facility"`), so it cannot fail; it still silently
overwrites any record already registered under the same id. -/
def register_component (t : Tracker) (cd : ComponentData) (now : String) :
    Tracker × SupplyChainEntry :=
  let hash_input := cd.component_id ++ "_" ++ cd.manufacturer ++ "_" ++ cd.batch_id
  let verification_hash := generate_component_hash hash_input
  let digital_signature := generate_digital_signature cd.component_id cd.manufacturer now
  let custody_chain : List CustodyEvent :=
    [{ stage := "MANUFACTURING"
       handler := cd.manufacturer
       timestamp := cd.manufacturing_date
       location := "Manufacturing Facility"
       action := "COMPONENT_CREATED"
       verified_by := "QA_SYSTEM"
       signature := pyTake 16 (sha256hex ("MFG_" ++ cd.component_id)) }]
  let entry : SupplyChainEntry :=
    { component_id := cd.component_id
      component_name := cd.component_name
      manufacturer := cd.manufacturer
      manufacturing_date := cd.manufacturing_date
      batch_id := cd.batch_id
      verification_hash := verification_hash
      digital_signature := digital_signature
      custody_chain := custody_chain
      indigenous_certification := cd.indigenous_certification
      security_clearance := cd.security_clearance }
  ({ t with components_db := dictInsert cd.component_id entry t.components_db },
   entry)

/-- `add_custody_event` of `supplychain_entry.py` (identical to the main
variant except for the `'SYSTEM'` default verifier). -/
def add_custody_event (t : Tracker) (component_id : String) (ed : EventData)
    (now : String) : Tracker × Except PyErr Bool :=
  match dictGet? component_id t.components_db with
  | none => (t, .ok false)
  | some component =>
    match ed.stage with
    | none => (t, .error (.keyError "stage"))
    | some st =>
      match ed.timestamp with
      | none => (t, .error (.keyError "timestamp"))
      | some ts =>
        let event_signature :=
          pyTake 16 (sha256hex (component_id ++ "_" ++ st ++ "_" ++ ts))
        match ed.handler with
        | none => (t, .error (.keyError "handler"))
        | some h =>
          match ed.location with
          | none => (t, .error (.keyError "location"))
          | some loc =>
            match ed.action with
            | none => (t, .error (.keyError "action"))
            | some act =>
              let custody_event : CustodyEvent :=
                { stage := st
                  handler := h
                  timestamp := ed.timestamp.getD now
                  location := loc
                  action := act
                  verified_by := ed.verified_by.getD "SYSTEM"
                  signature := event_signature }
              let component' :=
                { component with
                    custody_chain := component.custody_chain ++ [custody_event] }
              ({ t with components_db :=
                   dictInsert component_id component' t.components_db },
               .ok true)

/-- The five sample components of `supplychain_entry.py`. -/
def sample_components : List ComponentData :=
  [{ component_id := "SHAKTI-C-001",
     component_name := "SHAKTI C-Class Processor",
     manufacturer := "IIT_MADRAS", manufacturing_date := "2024-08-15",
     batch_id := "BATCH_SHAKTI_2024_Q3_001",
     indigenous_certification := true, security_clearance := "TOP_SECRET" },
   { component_id := "HSM-SEC-001",
     component_name := "Hardware Security Module",
     manufacturer := "C_DAC", manufacturing_date := "2024-08-20",
     batch_id := "BATCH_HSM_2024_Q3_001",
     indigenous_certification := true, security_clearance := "SECRET" },
   { component_id := "ENC-CASE-001",
     component_name := "Anti-Tamper Enclosure",
     manufacturer := "DRDO_LABS", manufacturing_date := "2024-08-25",
     batch_id := "BATCH_ENC_2024_Q3_001",
     indigenous_certification := true, security_clearance := "TOP_SECRET" },
   { component_id := "PWR-UPS-001",
     component_name := "Uninterruptible Power Supply",
     manufacturer := "BEL_INDIA", manufacturing_date := "2024-09-01",
     batch_id := "BATCH_PWR_2024_Q3_001",
     indigenous_certification := true, security_clearance := "SECRET" },
   { component_id := "PCB-IND-001",
     component_name := "Indigenous PCB Board",
     manufacturer := "COSMIC_CIRCUITS", manufacturing_date := "2024-09-05",
     batch_id := "BATCH_PCB_2024_Q3_001",
     indigenous_certification := true, security_clearance := "CONFIDENTIAL" }]

/-- `initialize_sample_components` of `supplychain_entry.py`. -/
def init_sample_components (t : Tracker) (now : String) : Tracker :=
  sample_components.foldl (fun s cd => (register_component s cd now).1) t

/-- A tracker with this variant's manufacturer directory and no
components. -/
def empty_tracker : Tracker :=
  { components_db := [], manufacturers_db := manufacturers_db_init }

/-- The state the `supplychain_entry.py` constructor produces. -/
def initial_tracker (now : String) : Tracker :=
  init_sample_components empty_tracker now

/-- States reachable from `t0` through this variant's two mutating
registry operations. -/
inductive ReachFrom (t0 : Tracker) : Tracker → Prop where
  | refl : ReachFrom t0 t0
  | reg (s : Tracker) (cd : ComponentData) (now : String) :
      ReachFrom t0 s → ReachFrom t0 (register_component s cd now).1
  | add (s : Tracker) (cid : String) (ed : EventData) (now : String) :
      ReachFrom t0 s → ReachFrom t0 (add_custody_event s cid ed now).1

end Entry

/-- A 16-character truncation of the 64-character digest is never the
empty string. -/
lemma sig_ne_empty (s : String) : pyTake 16 (sha256hex s) ≠ "" := by
  intro h
  have hlen : (pyTake 16 (sha256hex s)).data.length = 16 := by
    show ((sha256hex s).data.take 16).length = 16
    rw [List.length_take]
    have h64 : (sha256hex s).data.length = 64 := by
      show ((s.data ++ List.replicate 64 '0').take 64).length = 64
      rw [List.length_take, List.length_append, List.length_replicate]
      exact Nat.min_eq_left (Nat.le_add_left 64 _)
    rw [h64]
    decide
  rw [h] at hlen
  exact absurd hlen (by decide)

lemma dictGet?_insert_self {α : Type _} (k : String) (v : α)
    (l : List (String × α)) : dictGet? k (dictInsert k v l) = some v := by
  induction l with
  | nil => simp [dictInsert, dictGet?]
  | cons kv rest ih =>
    by_cases hk : kv.1 = k
    · simp [dictInsert, hk, dictGet?]
    · simp [dictInsert, hk, dictGet?, ih]

lemma dictGet?_insert_ne {α : Type _} (k id : String) (v : α)
    (l : List (String × α)) (h : id ≠ k) :
    dictGet? id (dictInsert k v l) = dictGet? id l := by
  induction l with
  | nil => simp [dictInsert, dictGet?, Ne.symm h]
  | cons kv rest ih =>
    by_cases hk : kv.1 = k
    · simp [dictInsert, hk, dictGet?, Ne.symm h]
    · simp [dictInsert, hk, dictGet?, ih]

lemma dictGet?_mem {α : Type _} {k : String} {v : α} {l : List (String × α)}
    (h : dictGet? k l = some v) : (k, v) ∈ l := by
  induction l with
  | nil => simp [dictGet?] at h
  | cons kv rest ih =>
    obtain ⟨k1, v1⟩ := kv
    by_cases hk : k1 = k
    · subst hk
      simp [dictGet?] at h
      subst h
      exact List.mem_cons_self _ _
    · simp [dictGet?, hk] at h
      exact List.mem_cons_of_mem _ (ih h)

lemma mem_dictInsert {α : Type _} {p : String × α} {k : String} {v : α}
    {l : List (String × α)} (h : p ∈ dictInsert k v l) :
    p = (k, v) ∨ p ∈ l := by
  induction l with
  | nil => simp [dictInsert] at h; exact Or.inl h
  | cons kv rest ih =>
    by_cases hk : kv.1 = k
    · rw [show dictInsert k v (kv :: rest) = (k, v) :: rest by
        simp [dictInsert, hk]] at h
      rcases List.mem_cons.mp h with h' | h'
      · exact Or.inl h'
      · exact Or.inr (List.mem_cons_of_mem _ h')
    · rw [show dictInsert k v (kv :: rest) = kv :: dictInsert k v rest by
        simp [dictInsert, hk]] at h
      rcases List.mem_cons.mp h with h' | h'
      · exact Or.inr (h' ▸ List.mem_cons_self _ _)
      · rcases ih h' with h'' | h''
        · exact Or.inl h''
        · exact Or.inr (List.mem_cons_of_mem _ h'')

lemma length_dictInsert_of_get {α : Type _} {k : String} {w : α}
    {l : List (String × α)} (v : α) (h : dictGet? k l = some w) :
    (dictInsert k v l).length = l.length := by
  induction l with
  | nil => simp [dictGet?] at h
  | cons kv rest ih =>
    by_cases hk : kv.1 = k
    · simp [dictInsert, hk]
    · rw [dictGet?, if_neg hk] at h
      simp [dictInsert, hk, ih h]

lemma length_le_dictInsert {α : Type _} (k : String) (v : α)
    (l : List (String × α)) : l.length ≤ (dictInsert k v l).length := by
  induction l with
  | nil => simp [dictInsert]
  | cons kv rest ih =>
    by_cases hk : kv.1 = k
    · simp [dictInsert, hk]
    · simpa [dictInsert, hk] using Nat.succ_le_succ ih

/-- Registration with an unknown manufacturer key raises `KeyError`
before anything is stored. -/
lemma register_component_unknown (t : SupplyChainTracker) (cd : ComponentData)
    (now : String) (h : dictGet? cd.manufacturer t.manufacturers_db = none) :
    register_component t cd now = (t, .error (.keyError cd.manufacturer)) := by
  unfold register_component
  rw [h]

/-- Registration with a known manufacturer key stores (possibly
overwriting) a fresh entry whose hash check holds and whose chain is the
single synthetic manufacturing event. -/
lemma register_component_known (t : SupplyChainTracker) (cd : ComponentData)
    (now : String) (m : ManufacturerRecord)
    (hm : dictGet? cd.manufacturer t.manufacturers_db = some m) :
    ∃ e, register_component t cd now =
        ({ t with components_db := dictInsert cd.component_id e t.components_db },
          Except.ok e)
      ∧ e.component_id = cd.component_id
      ∧ e.manufacturer = cd.manufacturer
      ∧ e.batch_id = cd.batch_id
      ∧ e.verification_hash =
          generate_component_hash
            (cd.component_id ++ "_" ++ cd.manufacturer ++ "_" ++ cd.batch_id)
      ∧ e.indigenous_certification = cd.indigenous_certification
      ∧ hash_ok e = true
      ∧ e.custody_chain.length = 1
      ∧ (∀ ev ∈ e.custody_chain, ev.signature ≠ "")
      ∧ e.custody_chain ≠ [] := by
  unfold register_component
  rw [hm]
  refine ⟨_, rfl, rfl, rfl, rfl, rfl, rfl, by simp [hash_ok], rfl, ?_, by simp⟩
  intro ev hev
  rw [List.mem_singleton] at hev
  subst hev
  simpa using sig_ne_empty ("MFG_" ++ cd.component_id)

/-- Case analysis of `add_custody_event`: either nothing changes and the
result is not `True` (unknown id or a `KeyError` on a missing field), or
the id was registered and exactly one signed event is appended at the end
of its chain. -/
lemma add_custody_event_spec (t : SupplyChainTracker) (cid : String)
    (ed : EventData) (now : String) :
    ((add_custody_event t cid ed now).1 = t ∧
      (add_custody_event t cid ed now).2 ≠ Except.ok true)
    ∨ ∃ c ev, dictGet? cid t.components_db = some c
        ∧ ev.signature ≠ ""
        ∧ add_custody_event t cid ed now =
            ({ t with components_db := dictInsert cid ({ c with custody_chain := c.custody_chain ++ [ev] }) t.components_db },
              Except.ok true) := by
  unfold add_custody_event
  cases hg : dictGet? cid t.components_db with
  | none => exact Or.inl ⟨rfl, by simp⟩
  | some c =>
    cases hst : ed.stage with
    | none => exact Or.inl ⟨rfl, by simp⟩
    | some st =>
      cases hts : ed.timestamp with
      | none => exact Or.inl ⟨rfl, by simp⟩
      | some ts =>
        cases hh : ed.handler with
        | none => exact Or.inl ⟨rfl, by simp⟩
        | some h =>
          cases hloc : ed.location with
          | none => exact Or.inl ⟨rfl, by simp⟩
          | some loc =>
            cases hact : ed.action with
            | none => exact Or.inl ⟨rfl, by simp⟩
            | some act =>
              exact Or.inr ⟨c, _, rfl,
                sig_ne_empty (cid ++ "_" ++ st ++ "_" ++ ts), rfl⟩

/-- Helper: `is_ok_true` of anything other than `.ok true` is `false`. -/
lemma is_ok_true_of_ne {r : Except PyErr Bool} (h : r ≠ Except.ok true) :
    is_ok_true r = false := by
  cases r with
  | error e => rfl
  | ok b => cases b with
    | true => exact absurd rfl h
    | false => rfl

/-- How one `add_custody_event` call affects an arbitrary registered
entry: its registration fields never change, and its chain grows by one
signed event exactly when the call targeted it and returned `True`. -/
lemma add_custody_event_entry (t : SupplyChainTracker) (cid : String)
    (ed : EventData) (now : String) (id : String) (c : SupplyChainEntry)
    (h : dictGet? id t.components_db = some c) :
    ∃ c', dictGet? id ((add_custody_event t cid ed now).1).components_db = some c'
      ∧ c'.component_id = c.component_id
      ∧ c'.manufacturer = c.manufacturer
      ∧ c'.batch_id = c.batch_id
      ∧ c'.verification_hash = c.verification_hash
      ∧ c'.indigenous_certification = c.indigenous_certification
      ∧ (∃ tail, c'.custody_chain = c.custody_chain ++ tail)
      ∧ c'.custody_chain.length =
          c.custody_chain.length +
            (if cid = id && is_ok_true (add_custody_event t cid ed now).2
              then 1 else 0) := by
  rcases add_custody_event_spec t cid ed now with ⟨h1, h2⟩ | ⟨c0, ev, hg, hsig, heq⟩
  · refine ⟨c, by rw [h1]; exact h, rfl, rfl, rfl, rfl, rfl, ⟨[], by simp⟩, ?_⟩
    simp [is_ok_true_of_ne h2]
  · by_cases hid : cid = id
    · subst hid
      have hc : c0 = c := by rw [h] at hg; exact (Option.some.inj hg).symm
      subst hc
      rw [heq]
      refine ⟨_, dictGet?_insert_self _ _ _, rfl, rfl, rfl, rfl, rfl,
        ⟨[ev], rfl⟩, ?_⟩
      simp [is_ok_true]
    · rw [heq]
      refine ⟨c, ?_, rfl, rfl, rfl, rfl, rfl, ⟨[], by simp⟩, ?_⟩
      · exact (dictGet?_insert_ne cid id _ _ (fun hh => hid hh.symm)).trans h
      · simp [hid]

/-- Running a whole trace of `add_custody_event` calls: a registered
entry keeps its registration fields and its chain length grows by exactly
the number of successful calls targeting it. -/
lemma run_appends_entry (ops : List (String × EventData × String)) :
    ∀ (t : SupplyChainTracker) (id : String) (c : SupplyChainEntry),
    dictGet? id t.components_db = some c →
    ∃ c', dictGet? id (run_appends t ops).components_db = some c'
      ∧ c'.component_id = c.component_id
      ∧ c'.manufacturer = c.manufacturer
      ∧ c'.batch_id = c.batch_id
      ∧ c'.verification_hash = c.verification_hash
      ∧ c'.custody_chain.length = c.custody_chain.length + count_ok t ops id := by
  induction ops with
  | nil =>
    intro t id c h
    exact ⟨c, h, rfl, rfl, rfl, rfl, by simp [count_ok]⟩
  | cons op rest ih =>
    intro t id c h
    obtain ⟨c1, h1, e1, e2, e3, e4, _, _, hlen⟩ :=
      add_custody_event_entry t op.1 op.2.1 op.2.2 id c h
    obtain ⟨c', h', f1, f2, f3, f4, hlen'⟩ :=
      ih (add_custody_event t op.1 op.2.1 op.2.2).1 id c1 h1
    refine ⟨c', h', f1.trans e1, f2.trans e2, f3.trans e3, f4.trans e4, ?_⟩
    rw [hlen', hlen]
    show _ = c.custody_chain.length + count_ok t (op :: rest) id
    rw [count_ok]
    omega

/-- Characterisation of `verify_component_authenticity` on a registered
id: the found-result fields in terms of the stored entry. -/
lemma verify_component_found (t : SupplyChainTracker) (cid : String)
    (c : SupplyChainEntry) (h : dictGet? cid t.components_db = some c) :
    ∃ r, verify_component_authenticity t cid = .found r
      ∧ r.authentic =
          (hash_ok c && manufacturer_valid_check t c && chain_valid_check c)
      ∧ r.indigenous = c.indigenous_certification
      ∧ r.hash_verification = hash_ok c
      ∧ r.chain_integrity = chain_valid_check c
      ∧ r.custody_events = c.custody_chain.length := by
  unfold verify_component_authenticity
  rw [h]
  exact ⟨_, rfl, rfl, rfl, rfl, rfl, rfl⟩

/-- `chain_valid` follows from the chain being non-empty, since every
structurally well-formed event dict carries the `signature` key. -/
lemma chain_valid_of_ne_nil (c : SupplyChainEntry)
    (h : c.custody_chain ≠ []) : chain_valid_check c = true := by
  unfold chain_valid_check
  rw [Bool.and_eq_true]
  constructor
  · simpa using List.length_pos.mpr h
  · rw [List.all_eq_true]
    intro ev _
    rfl

/-- The per-state chain invariant: every stored chain is non-empty and
every stored event has a non-empty signature. -/
def ChainInv (t : SupplyChainTracker) : Prop :=
  ∀ kv ∈ t.components_db,
    kv.2.custody_chain ≠ [] ∧ ∀ ev ∈ kv.2.custody_chain, ev.signature ≠ ""

/-- The chain invariant holds in every state reachable from the empty
registry. -/
lemma reach_chain_inv (s : SupplyChainTracker)
    (h : ReachFrom empty_tracker s) : ChainInv s := by
  induction h with
  | refl => intro kv hkv; simp [empty_tracker] at hkv
  | reg s cd now _ ih =>
    cases hm : dictGet? cd.manufacturer s.manufacturers_db with
    | none =>
      rw [register_component_unknown s cd now hm]
      exact ih
    | some m =>
      obtain ⟨e, heq, _, _, _, _, _, _, _, hsig, hnil⟩ :=
        register_component_known s cd now m hm
      rw [heq]
      intro kv hkv
      rcases mem_dictInsert hkv with rfl | hkv'
      · exact ⟨hnil, hsig⟩
      · exact ih kv hkv'
  | add s cid ed now _ ih =>
    rcases add_custody_event_spec s cid ed now with ⟨h1, _⟩ | ⟨c0, ev, hg, hsig, heq⟩
    · rw [h1]; exact ih
    · rw [heq]
      intro kv hkv
      rcases mem_dictInsert hkv with rfl | hkv'
      · obtain ⟨hnil0, hsig0⟩ := ih (cid, c0) (dictGet?_mem hg)
        refine ⟨by simp, ?_⟩
        intro ev' hev'
        rcases List.mem_append.mp hev' with hc | hc
        · exact hsig0 ev' hc
        · rw [List.mem_singleton] at hc
          exact hc ▸ hsig
      · exact ih kv hkv'

/-- The registry never shrinks along any reachable path. -/
lemma reach_length_le (t0 s : SupplyChainTracker) (h : ReachFrom t0 s) :
    t0.components_db.length ≤ s.components_db.length := by
  induction h with
  | refl => exact Nat.le_refl _
  | reg s cd now _ ih =>
    cases hm : dictGet? cd.manufacturer s.manufacturers_db with
    | none => rw [register_component_unknown s cd now hm]; exact ih
    | some m =>
      obtain ⟨e, heq, _⟩ := register_component_known s cd now m hm
      rw [heq]
      exact ih.trans (length_le_dictInsert _ _ _)
  | add s cid ed now _ ih =>
    rcases add_custody_event_spec s cid ed now with ⟨h1, _⟩ | ⟨c0, ev, hg, _, heq⟩
    · rw [h1]; exact ih
    · rw [heq]
      exact ih.trans (Nat.le_of_eq (length_dictInsert_of_get _ hg).symm)

namespace Entry

/-- This variant's registration always stores (possibly overwriting) the
returned entry under the component id. -/
lemma register_state (t : Tracker) (cd : ComponentData) (now : String) :
    (register_component t cd now).1 =
      { t with components_db := dictInsert cd.component_id (register_component t cd now).2 t.components_db } := rfl

/-- Case analysis of this variant's `add_custody_event`, mirroring the
main one. -/
lemma add_custody_event_spec_entry (t : Tracker) (cid : String)
    (ed : EventData) (now : String) :
    ((add_custody_event t cid ed now).1 = t ∧
      (add_custody_event t cid ed now).2 ≠ Except.ok true)
    ∨ ∃ c ev, dictGet? cid t.components_db = some c
        ∧ add_custody_event t cid ed now =
            ({ t with components_db := dictInsert cid ({ c with custody_chain := c.custody_chain ++ [ev] }) t.components_db },
              Except.ok true) := by
  unfold add_custody_event
  cases hg : dictGet? cid t.components_db with
  | none => exact Or.inl ⟨rfl, by simp⟩
  | some c =>
    cases hst : ed.stage with
    | none => exact Or.inl ⟨rfl, by simp⟩
    | some st =>
      cases hts : ed.timestamp with
      | none => exact Or.inl ⟨rfl, by simp⟩
      | some ts =>
        cases hh : ed.handler with
        | none => exact Or.inl ⟨rfl, by simp⟩
        | some h =>
          cases hloc : ed.location with
          | none => exact Or.inl ⟨rfl, by simp⟩
          | some loc =>
            cases hact : ed.action with
            | none => exact Or.inl ⟨rfl, by simp⟩
            | some act => exact Or.inr ⟨c, _, rfl, rfl⟩

/-- This variant's registry never shrinks along any reachable path
either. -/
lemma reach_length_le_entry (t0 s : Tracker) (h : ReachFrom t0 s) :
    t0.components_db.length ≤ s.components_db.length := by
  induction h with
  | refl => exact Nat.le_refl _
  | reg s cd now _ ih =>
    rw [register_state]
    exact ih.trans (length_le_dictInsert _ _ _)
  | add s cid ed now _ ih =>
    rcases add_custody_event_spec_entry s cid ed now with ⟨h1, _⟩ | ⟨c0, ev, hg, heq⟩
    · rw [h1]; exact ih
    · rw [heq]
      exact ih.trans (Nat.le_of_eq (length_dictInsert_of_get _ hg).symm)

end Entry

/-- A fresh registration input used by the concrete test states. -/
def cd_x : ComponentData :=
  { component_id := "X-001", component_name := "Test Component",
    manufacturer := "IIT_MADRAS", manufacturing_date := "2024-10-01",
    batch_id := "BATCH_X_1", indigenous_certification := true,
    security_clearance := "SECRET" }

/-- The same id re-registered with a different batch. -/
def cd_x2 : ComponentData := { cd_x with batch_id := "BATCH_X_2" }

/-- A registration input whose indigenous flag is false. -/
def cd_non_indigenous : ComponentData :=
  { component_id := "NI-001", component_name := "Imported Module",
    manufacturer := "C_DAC", manufacturing_date := "2024-10-01",
    batch_id := "BATCH_NI_1", indigenous_certification := false,
    security_clearance := "SECRET" }

/-- A registration input whose manufacturer key is not in the
directory. -/
def cd_unknown_mfr : ComponentData :=
  { cd_x with component_id := "ACME-001", manufacturer := "ACME_CORP" }

/-- State with just `cd_x` registered. -/
def t_x : SupplyChainTracker := (register_component empty_tracker cd_x "T0").1

/-- A complete custody-event input (timestamp included). -/
def ed_full : EventData :=
  { stage := some "QUALITY_CONTROL", handler := some "BPRD_QC_TEAM",
    timestamp := some "2024-10-02T10:00:00",
    location := some "BPRD Testing Facility - New Delhi",
    action := some "COMPONENT_TESTED_PASSED",
    verified_by := some "QC_ENGINEER_L2" }

/-- The custody-event input the module's own deployment simulation
passes: everything except the timestamp. -/
def ed_no_timestamp : EventData := { ed_full with timestamp := none }

/-- `t_x` after one successful custody event. -/
def t_x1 : SupplyChainTracker := (add_custody_event t_x "X-001" ed_full "T1").1

/-- `t_x1` after re-registering the same id with the new batch. -/
def t_x2 : SupplyChainTracker := (register_component t_x1 cd_x2 "T2").1

/-- State with just the non-indigenous component registered. -/
def t_non_indigenous : SupplyChainTracker :=
  (register_component empty_tracker cd_non_indigenous "T0").1

/-- The stored entry of the non-indigenous component. -/
def e_non_indigenous : SupplyChainEntry :=
  (dictGet? "NI-001" t_non_indigenous.components_db).getD default

/-- Claim C4: verifying an unknown component id returns the fixed
not-found dict — authentic, indigenous and chain integrity all false,
status COMPONENT_NOT_FOUND — and does not throw. -/
theorem verify_unknown_component_result (t : SupplyChainTracker)
    (cid : String) (h : dictGet? cid t.components_db = none) :
    verify_component_authenticity t cid = .notFound
      { component_id := cid, verification_status := "COMPONENT_NOT_FOUND",
        authentic := false, indigenous := false, security_cleared := false,
        chain_integrity := false,
        error := "Component not registered in database" } := by
  unfold verify_component_authenticity
  rw [h]

/-- Witness for C4 at the constructed tracker and the spec's own
"UNKNOWN-ID" example. -/
theorem verify_unknown_component_result_witness :
    verify_component_authenticity (initial_tracker "T0") "UNKNOWN-ID" = .notFound
      { component_id := "UNKNOWN-ID",
        verification_status := "COMPONENT_NOT_FOUND",
        authentic := false, indigenous := false, security_cleared := false,
        chain_integrity := false,
        error := "Component not registered in database" } :=
  verify_unknown_component_result (initial_tracker "T0") "UNKNOWN-ID" (by decide)

/-- Claim C5: appending a custody event to an unknown id returns False
without raising, and the state — registry size, every record, every
chain — is exactly the input state. -/
theorem append_unknown_id_noop (t : SupplyChainTracker) (cid : String)
    (ed : EventData) (now : String)
    (h : dictGet? cid t.components_db = none) :
    add_custody_event t cid ed now = (t, .ok false) := by
  unfold add_custody_event
  rw [h]

/-- Witness for C5 at the constructed tracker. -/
theorem append_unknown_id_noop_witness :
    add_custody_event (initial_tracker "T0") "UNKNOWN-ID" ed_full "T9" =
      (initial_tracker "T0", .ok false) :=
  append_unknown_id_noop (initial_tracker "T0") "UNKNOWN-ID" ed_full "T9" (by decide)

/-- Claim C2 (code bug): on a registered id, an event dict carrying
stage, handler, location and action but no timestamp makes
`add_custody_event` raise `KeyError('timestamp')` from the signature
computation (line 198) instead of defaulting the timestamp to the
current time as the dead `.get('timestamp', now)` on line 204 intends;
no event is recorded.  The module's own deployment simulation passes
exactly such dicts. -/
theorem add_custody_event_missing_timestamp_keyerror :
    (dictGet? "SHAKTI-C-001" (initial_tracker "T0").components_db).isSome = true
    ∧ add_custody_event (initial_tracker "T0") "SHAKTI-C-001" ed_no_timestamp
        "2024-10-02T09:00:00"
        = (initial_tracker "T0", .error (.keyError "timestamp")) :=
  ⟨by decide, rfl⟩

/-- Claim C9: the report over a registry with zero components reports
totalComponents 0 and both rates exactly "0%", with no division. -/
theorem report_zero_components_rates (t : SupplyChainTracker)
    (rid gat ats : String) (h : t.components_db = []) :
    (get_supply_chain_report t rid gat ats).summary =
      { total_components := 0, verified_components := 0,
        indigenous_components := 0, verification_rate := "0%",
        indigenous_rate := "0%" } := by
  simp [get_supply_chain_report, h]

/-- Witness for C9 at the concrete zero-component state. -/
theorem report_zero_components_rates_witness :
    (get_supply_chain_report empty_tracker "R" "G" "A").summary =
      { total_components := 0, verified_components := 0,
        indigenous_components := 0, verification_rate := "0%",
        indigenous_rate := "0%" } :=
  report_zero_components_rates empty_tracker "R" "G" "A" rfl

/-- The IIT_MADRAS directory record, extracted for witnesses. -/
def mfr_iit : ManufacturerRecord :=
  (dictGet? "IIT_MADRAS" manufacturers_db_init).getD default

/-- The stored entry of `t_x`. -/
def e_x : SupplyChainEntry := (dictGet? "X-001" t_x.components_db).getD default

/-- Claim C1 counterexample: re-registering the already-registered id
"X-001" with a new batch does not fail — the call returns a fresh entry
and the stored record is silently replaced (batch changes from BATCH_X_1
to BATCH_X_2), with the registry size unchanged. -/
theorem register_duplicate_overwrites_cx :
    except_is_ok (register_component t_x cd_x2 "T1").2 = true
    ∧ ((dictGet? "X-001" t_x.components_db).map (fun e => e.batch_id)) =
        some "BATCH_X_1"
    ∧ ((dictGet? "X-001"
          ((register_component t_x cd_x2 "T1").1).components_db).map
        (fun e => e.batch_id)) = some "BATCH_X_2"
    ∧ ((register_component t_x cd_x2 "T1").1).components_db.length =
        t_x.components_db.length := by
  refine ⟨by decide, by decide, by decide, by decide⟩

/-- Claim C1 (amended): registration never rejects a duplicate
identifier — whenever the manufacturer key resolves it stores the freshly
built entry under the id, silently replacing any existing record, and
returns it.  An unknown manufacturer key makes `supply_chain_tracker.py`
raise `KeyError` (an exception, not an explicit error value) with nothing
stored, while `supplychain_entry.py` accepts the unknown key and stores
the record anyway. -/
theorem register_amended_behaviour :
    (∀ (t : SupplyChainTracker) (cd : ComponentData) (now : String),
        dictGet? cd.manufacturer t.manufacturers_db = none →
        register_component t cd now = (t, .error (.keyError cd.manufacturer)))
    ∧ (∀ (t : SupplyChainTracker) (cd : ComponentData) (now : String)
        (m : ManufacturerRecord),
        dictGet? cd.manufacturer t.manufacturers_db = some m →
        ∃ e, register_component t cd now =
            ({ t with components_db := dictInsert cd.component_id e t.components_db }, Except.ok e)
          ∧ dictGet? cd.component_id
              ((register_component t cd now).1).components_db = some e)
    ∧ (∀ (t : Entry.Tracker) (cd : ComponentData) (now : String),
        dictGet? cd.component_id
          ((Entry.register_component t cd now).1).components_db =
          some (Entry.register_component t cd now).2) := by
  refine ⟨register_component_unknown, ?_, ?_⟩
  · intro t cd now m hm
    obtain ⟨e, heq, _⟩ := register_component_known t cd now m hm
    refine ⟨e, heq, ?_⟩
    rw [heq]
    exact dictGet?_insert_self _ _ _
  · intro t cd now
    rw [Entry.register_state]
    exact dictGet?_insert_self _ _ _

/-- Witness for the amended C1: the unknown-manufacturer branch at a
concrete input. -/
theorem register_amended_behaviour_witness :
    register_component empty_tracker cd_unknown_mfr "T0" =
      (empty_tracker, .error (.keyError "ACME_CORP")) :=
  register_amended_behaviour.1 empty_tracker cd_unknown_mfr "T0" (by decide)

/-- Claim C3: for every registered id the verdict's authentic flag is
exactly hashValid AND manufacturerValid AND chainValid, the indigenous
flag is passed through separately, and flipping the stored indigenous
flag never changes authentic. -/
theorem authentic_is_three_way_conjunction (t : SupplyChainTracker)
    (cid : String) (c : SupplyChainEntry)
    (h : dictGet? cid t.components_db = some c) :
    ∃ r, verify_component_authenticity t cid = .found r
      ∧ r.authentic =
          (hash_ok c && manufacturer_valid_check t c && chain_valid_check c)
      ∧ r.indigenous = c.indigenous_certification
      ∧ ∀ b : Bool, ∃ r',
          verify_component_authenticity
            { t with components_db := dictInsert cid ({ c with indigenous_certification := b }) t.components_db }
            cid = .found r'
          ∧ r'.authentic = r.authentic ∧ r'.indigenous = b := by
  obtain ⟨r, hr, ha, hi, _, _, _⟩ := verify_component_found t cid c h
  refine ⟨r, hr, ha, hi, ?_⟩
  intro b
  obtain ⟨r', hr', ha', hi', _, _, _⟩ :=
    verify_component_found
      { t with components_db := dictInsert cid ({ c with indigenous_certification := b }) t.components_db }
      cid ({ c with indigenous_certification := b })
      (dictGet?_insert_self cid ({ c with indigenous_certification := b }) t.components_db)
  refine ⟨r', hr', ?_, by rw [hi']⟩
  rw [ha', ha]
  rfl

/-- Witness for C3: a concrete component with indigenous flag false but
all three checks passing is authentic and reported non-indigenous. -/
theorem authentic_is_three_way_conjunction_witness :
    verdict_authentic (verify_component_authenticity t_non_indigenous "NI-001") = true
    ∧ verdict_indigenous (verify_component_authenticity t_non_indigenous "NI-001") = false := by
  obtain ⟨r, hr, ha, hi, _⟩ :=
    authentic_is_three_way_conjunction t_non_indigenous "NI-001"
      e_non_indigenous (by decide)
  constructor
  · rw [hr]
    show r.authentic = true
    rw [ha]
    decide
  · rw [hr]
    show r.indigenous = false
    rw [hi]
    decide

/-- Claim C6: hashValid is true immediately after a successful
registration and stays true across any trace of custody-event appends,
since appends never touch the stored id, manufacturer key, batch id or
verification hash. -/
theorem hash_valid_stable_under_appends (t : SupplyChainTracker)
    (cd : ComponentData) (now : String) (m : ManufacturerRecord)
    (hm : dictGet? cd.manufacturer t.manufacturers_db = some m)
    (ops : List (String × EventData × String)) :
    ∃ r, verify_component_authenticity
        (run_appends (register_component t cd now).1 ops) cd.component_id
        = .found r
      ∧ r.hash_verification = true := by
  obtain ⟨e, heq, _, _, _, _, _, hhash, _, _, _⟩ :=
    register_component_known t cd now m hm
  have hget : dictGet? cd.component_id
      ((register_component t cd now).1).components_db = some e := by
    rw [heq]
    exact dictGet?_insert_self _ _ _
  obtain ⟨c', hget', f1, f2, f3, f4, _⟩ :=
    run_appends_entry ops _ cd.component_id e hget
  obtain ⟨r, hr, _, _, hhv, _, _⟩ :=
    verify_component_found _ cd.component_id c' hget'
  refine ⟨r, hr, ?_⟩
  rw [hhv]
  unfold hash_ok at hhash ⊢
  rw [f1, f2, f3, f4]
  exact hhash

/-- Trace for the C6 witness. -/
def ops_w : List (String × EventData × String) := [("X-001", ed_full, "T1")]

/-- Witness for C6 at a concrete registration followed by one append. -/
theorem hash_valid_stable_under_appends_witness :
    ∃ r, verify_component_authenticity
        (run_appends (register_component empty_tracker cd_x "T0").1 ops_w)
        "X-001" = .found r
      ∧ r.hash_verification = true :=
  hash_valid_stable_under_appends empty_tracker cd_x "T0" mfr_iit (by decide) ops_w

/-- Claim C7: after registration the reported custody-event count is
exactly one (the synthetic MANUFACTURING/COMPONENT_CREATED event) plus
the number of appendCustodyEvent calls in the trace that targeted the id
and returned success. -/
theorem custody_event_count_accounting (t : SupplyChainTracker)
    (cd : ComponentData) (now : String) (m : ManufacturerRecord)
    (hm : dictGet? cd.manufacturer t.manufacturers_db = some m)
    (ops : List (String × EventData × String)) :
    ∃ r, verify_component_authenticity
        (run_appends (register_component t cd now).1 ops) cd.component_id
        = .found r
      ∧ r.custody_events =
          1 + count_ok (register_component t cd now).1 ops cd.component_id := by
  obtain ⟨e, heq, _, _, _, _, _, _, hlen1, _, _⟩ :=
    register_component_known t cd now m hm
  have hget : dictGet? cd.component_id
      ((register_component t cd now).1).components_db = some e := by
    rw [heq]
    exact dictGet?_insert_self _ _ _
  obtain ⟨c', hget', _, _, _, _, hlen⟩ :=
    run_appends_entry ops _ cd.component_id e hget
  obtain ⟨r, hr, _, _, _, _, hce⟩ :=
    verify_component_found _ cd.component_id c' hget'
  refine ⟨r, hr, ?_⟩
  rw [hce, hlen, hlen1]

/-- Trace for the C7 witness: one successful append to the id, one call
to an unregistered id (returns False), one call with a missing timestamp
(raises) — only the first one counts. -/
def ops_w7 : List (String × EventData × String) :=
  [("X-001", ed_full, "T1"), ("OTHER-ID", ed_full, "T2"),
   ("X-001", ed_no_timestamp, "T3")]

/-- Witness for C7: the count over the mixed trace is 1 and the reported
custody-event count is 1 + 1. -/
theorem custody_event_count_accounting_witness :
    (∃ r, verify_component_authenticity
        (run_appends (register_component empty_tracker cd_x "T0").1 ops_w7)
        "X-001" = .found r
      ∧ r.custody_events =
          1 + count_ok (register_component empty_tracker cd_x "T0").1 ops_w7 "X-001")
    ∧ count_ok (register_component empty_tracker cd_x "T0").1 ops_w7 "X-001" = 1 := by
  constructor
  · exact custody_event_count_accounting empty_tracker cd_x "T0" mfr_iit
      (by decide) ops_w7
  · decide

/-- Claim C8 counterexample: after registering "X-001" and appending one
event its chain has two events, but re-registering the same id resets the
stored chain to the single synthetic event — the two previously stored
events are discarded, so chains are not append-only across register. -/
theorem reregistration_discards_chain_cx :
    ((dictGet? "X-001" t_x1.components_db).map
        (fun c => c.custody_chain.length)) = some 2
    ∧ ((dictGet? "X-001" t_x2.components_db).map
        (fun c => c.custody_chain.length)) = some 1 :=
  ⟨by decide, by decide⟩

/-- Claim C8 (amended): in every registry state reachable through
register and appendCustodyEvent from the empty registry, every stored
custody event has a non-empty signature and chainValid holds for every
registered component; appendCustodyEvent itself only ever appends at the
end of the stored chain — but register on an existing id replaces the
whole record, discarding its previous chain, so the history is
append-only only with respect to appendCustodyEvent. -/
theorem chain_signature_invariant_amended :
    (∀ s, ReachFrom empty_tracker s →
      ∀ kv ∈ s.components_db,
        kv.2.custody_chain ≠ []
          ∧ (∀ ev ∈ kv.2.custody_chain, ev.signature ≠ "")
          ∧ chain_valid_check kv.2 = true)
    ∧ (∀ (t : SupplyChainTracker) (cid : String) (ed : EventData)
        (now : String) (id : String) (c : SupplyChainEntry),
        dictGet? id t.components_db = some c →
        ∃ c' tail,
          dictGet? id ((add_custody_event t cid ed now).1).components_db = some c'
          ∧ c'.custody_chain = c.custody_chain ++ tail) := by
  constructor
  · intro s hs kv hkv
    obtain ⟨h1, h2⟩ := reach_chain_inv s hs kv hkv
    exact ⟨h1, h2, chain_valid_of_ne_nil _ h1⟩
  · intro t cid ed now id c h
    obtain ⟨c', hget, _, _, _, _, _, ⟨tail, htail⟩, _⟩ :=
      add_custody_event_entry t cid ed now id c h
    exact ⟨c', tail, hget, htail⟩

/-- Witness for the amended C8 at the concrete reachable state `t_x`. -/
theorem chain_signature_invariant_amended_witness :
    (e_x.custody_chain ≠ [] ∧ chain_valid_check e_x = true)
    ∧ ∃ c' tail,
        dictGet? "X-001" ((add_custody_event t_x "X-001" ed_full "T1").1).components_db = some c'
        ∧ c'.custody_chain = e_x.custody_chain ++ tail := by
  have hreach : ReachFrom empty_tracker t_x :=
    ReachFrom.reg empty_tracker cd_x "T0" ReachFrom.refl
  constructor
  · have h := chain_signature_invariant_amended.1 t_x hreach ("X-001", e_x)
      (by decide)
    exact ⟨h.1, h.2.2⟩
  · exact chain_signature_invariant_amended.2 t_x "X-001" ed_full "T1" "X-001"
      e_x (by decide)

/-- The six sample ids seeded by the `supply_chain_tracker.py`
constructor. -/
def sample_ids : List String :=
  ["SHAKTI-C-001", "HSM-SEC-001", "ENC-CASE-001", "PWR-UPS-001",
   "PCB-IND-001", "NET-MOD-001"]

/-- The five sample ids seeded by the `supplychain_entry.py`
constructor. -/
def sample_ids_entry : List String :=
  ["SHAKTI-C-001", "HSM-SEC-001", "ENC-CASE-001", "PWR-UPS-001",
   "PCB-IND-001"]

/-- Claim C10: the constructor pre-registers six components in
`supply_chain_tracker.py` and five in `supplychain_entry.py`; each sample
id resolves on a fresh instance; every state reachable from a constructed
tracker keeps at least that many components, so the report's
zero-component rate branch is unreachable through the public
constructor. -/
theorem constructor_seeding_and_nonempty (now : String) :
    ((initial_tracker now).components_db.length = 6
      ∧ (sample_ids.all
          (fun id => (dictGet? id (initial_tracker now).components_db).isSome))
          = true)
    ∧ ((Entry.initial_tracker now).components_db.length = 5
      ∧ (sample_ids_entry.all
          (fun id =>
            (dictGet? id (Entry.initial_tracker now).components_db).isSome))
          = true)
    ∧ (∀ s, ReachFrom (initial_tracker now) s →
        6 ≤ s.components_db.length
        ∧ 0 < (get_supply_chain_report s "R" "G" "A").summary.total_components)
    ∧ (∀ s, Entry.ReachFrom (Entry.initial_tracker now) s →
        5 ≤ s.components_db.length) := by
  have h6 : (initial_tracker now).components_db.length = 6 := by
    simp [initial_tracker, init_sample_components, sample_components,
      List.foldl, register_component, empty_tracker, manufacturers_db_init,
      dictGet?, dictInsert]
  have h5 : (Entry.initial_tracker now).components_db.length = 5 := by
    simp [Entry.initial_tracker, Entry.init_sample_components,
      Entry.sample_components, List.foldl, Entry.register_component,
      Entry.empty_tracker, Entry.manufacturers_db_init, dictGet?, dictInsert]
  refine ⟨⟨h6, ?_⟩, ⟨h5, ?_⟩, ?_, ?_⟩
  · simp [sample_ids, initial_tracker, init_sample_components,
      sample_components, List.foldl, register_component, empty_tracker,
      manufacturers_db_init, dictGet?, dictInsert]
  · simp [sample_ids_entry, Entry.initial_tracker,
      Entry.init_sample_components, Entry.sample_components, List.foldl,
      Entry.register_component, Entry.empty_tracker,
      Entry.manufacturers_db_init, dictGet?, dictInsert]
  · intro s hs
    have hle := reach_length_le _ _ hs
    rw [h6] at hle
    refine ⟨hle, ?_⟩
    show 0 < s.components_db.length
    omega
  · intro s hs
    have hle := Entry.reach_length_le_entry _ _ hs
    rw [h5] at hle
    exact hle

/-- Witness for C10 at a concrete construction time. -/
theorem constructor_seeding_and_nonempty_witness :
    (initial_tracker "T0").components_db.length = 6
    ∧ (Entry.initial_tracker "T0").components_db.length = 5
    ∧ 6 ≤ (initial_tracker "T0").components_db.length
    ∧ 0 < (get_supply_chain_report (initial_tracker "T0") "R" "G" "A").summary.total_components := by
  have h := constructor_seeding_and_nonempty "T0"
  have h3 := h.2.2.1 (initial_tracker "T0") ReachFrom.refl
  exact ⟨h.1.1, h.2.1.1, h3.1, h3.2⟩
